import Mathlib

/-!
Verification development for the wechat_daily_report pipeline.

The Python sources are shallowly embedded as executable Lean definitions:
strings are manipulated through their underlying character lists so that
every definition evaluates inside the kernel; Python dict lookups with
defaults are modelled by fields holding the post-default values (noted at
each structure); Python truthiness of a string is the test against the
empty string; a bare `except` around a block that can only fail with
IndexError is modelled by an `Option`-valued attempt function.
-/

/-! ### Data model (summarizer.py / export_chat_logs.py message records) -/

/-- Referenced message inside a quote-reply, fields as read by
`_format_messages`: `refer.get('senderName', '未知用户')`,
`refer.get('content', '')`, `refer.get('isSelf', False)` with the dict
defaults already applied. -/
structure ReferMessage where
  senderName : String
  content : String
  isSelf : Bool
deriving DecidableEq, Repr

/-- The `contents` mapping of a raw record: `contents.get('title', '')` and
`contents.get('url', '')` with defaults applied; `refer` is `none` exactly
when `contents.get('refer')` is falsy (absent, `None`, or an empty dict). -/
structure MsgContents where
  title : String
  url : String
  refer : Option ReferMessage
deriving DecidableEq, Repr

/-- One raw chat-log record as read by `_format_messages`
(summarizer.py lines 33-39): `time`, `senderName`, `content` default to
the strings shown there, `type` and `subType` default to 0, `isSelf` to
False; the defaults are already applied in these fields. -/
structure RawMessage where
  time : String
  senderName : String
  content : String
  type : Int
  subType : Int
  contents : MsgContents
  isSelf : Bool
deriving DecidableEq, Repr

/-! ### Character-level models of the Python string primitives used -/

/-- Model of Python `str.split(sep)` for a one-character separator, on the
character list: always returns at least one piece. -/
def splitChar (sep : Char) : List Char → List (List Char)
  | [] => [[]]
  | c :: cs =>
    if c = sep then [] :: splitChar sep cs
    else
      match splitChar sep cs with
      | [] => [[c]]
      | w :: ws => (c :: w) :: ws

/-- Python `s.split(sep)` for a one-character `sep`, as Lean strings. -/
def pySplit (s : String) (sep : Char) : List String :=
  (splitChar sep s.data).map (fun cs => String.mk cs)

/-- Python slice `s[:n]` (by code points). -/
def pyTake (s : String) (n : Nat) : String :=
  String.mk (s.data.take n)

/-- Model of Python `not s.strip()`: true iff `s` is empty or consists
solely of whitespace. -/
def pyStripEmpty (s : String) : Bool :=
  s.data.all (fun c => c.isWhitespace)

/-! ### Message normalizer (BaseSummarizer._format_messages, lines 41-90) -/

/-- The try-block of the timestamp shortening in
`BaseSummarizer._format_messages` (lines 43-48): from
"2025-07-04T10:05:32+08:00" extract "07-04 10:05". Returns `none` exactly
where Python raises IndexError (no 'T' part, or fewer than two '-' pieces
after dropping the first), which the bare `except` catches. -/
def shortTimeAttempt (ts : String) : Option String :=
  let partsT := pySplit ts 'T'
  match partsT[1]? with
  | none => none
  | some afterT =>
    let dp := (pySplit (partsT.headD "") '-').drop 1
    let timePart := pyTake ((pySplit afterT '+').headD "") 5
    match dp[0]?, dp[1]? with
    | some d0, some d1 => some (d0 ++ "-" ++ d1 ++ " " ++ timePart)
    | _, _ => none

/-- Timestamp shortening with the surrounding `if time_str:` guard and the
bare `except: time_str = time_str` fallback (lines 42-49): on any parse
failure the original string passes through unmodified. -/
def shortTime (ts : String) : String :=
  if ts = "" then ts
  else
    match shortTimeAttempt ts with
    | some s => s
    | none => ts

/-- The try-block of the timestamp shortening in
`ChatLogExporter.format_messages` (export_chat_logs.py lines 121-127),
which keeps the year: "2025-07-04T10:05:32+08:00" becomes
"2025-07-04 10:05". -/
def shortTimeExportAttempt (ts : String) : Option String :=
  let partsT := pySplit ts 'T'
  match partsT[1]? with
  | none => none
  | some afterT =>
    let dp := pySplit (partsT.headD "") '-'
    let timePart := pyTake ((pySplit afterT '+').headD "") 5
    match dp[0]?, dp[1]?, dp[2]? with
    | some d0, some d1, some d2 =>
      some (d0 ++ "-" ++ d1 ++ "-" ++ d2 ++ " " ++ timePart)
    | _, _, _ => none

/-- Export-path timestamp shortening with guard and fallback. -/
def shortTimeExport (ts : String) : String :=
  if ts = "" then ts
  else
    match shortTimeExportAttempt ts with
    | some s => s
    | none => ts

/-- The `messageKind` dispatch of `_format_messages` (lines 51-82),
identical in summarizer.py and export_chat_logs.py: returns the formatted
body, or `none` for the `continue` branches (images, and other kinds
without text content). -/
def formatContent (log : RawMessage) : Option String :=
  if log.type = 1 then
    some log.content
  else if log.type = 3 then
    none
  else if log.type = 49 then
    if log.subType = 51 then
      some ("[分享] [" ++ log.contents.title ++ "]" ++
        (if log.contents.url ≠ "" then "(" ++ log.contents.url ++ ")" else ""))
    else if log.subType = 57 then
      match log.contents.refer with
      | some refer =>
        let referSenderDisplay :=
          if refer.isSelf then refer.senderName ++ " [我]" else refer.senderName
        some (log.content ++ "\n  └ 回复 " ++ referSenderDisplay ++ ": " ++ refer.content)
      | none =>
        some (if log.content ≠ "" then log.content else "[其他消息]")
    else
      some (if log.content ≠ "" then log.content else "[其他消息]")
  else
    if log.content ≠ "" ∧ pyStripEmpty log.content = false then some log.content
    else none

/-- One loop iteration of `BaseSummarizer._format_messages`: the
normalized display line for a record, or `none` when the record is
dropped (`continue`). -/
def normalizeMsg (log : RawMessage) : Option String :=
  match formatContent log with
  | none => none
  | some fc =>
    if pyStripEmpty fc then none
    else
      let senderDisplay :=
        if log.isSelf then log.senderName ++ " [我]" else log.senderName
      some ("[" ++ shortTime log.time ++ "] " ++ senderDisplay ++ ": " ++ fc)

/-- One loop iteration of `ChatLogExporter.format_messages`: identical to
`normalizeMsg` except for the year-keeping timestamp format. -/
def normalizeExportMsg (log : RawMessage) : Option String :=
  match formatContent log with
  | none => none
  | some fc =>
    if pyStripEmpty fc then none
    else
      let senderDisplay :=
        if log.isSelf then log.senderName ++ " [我]" else log.senderName
      some ("[" ++ shortTimeExport log.time ++ "] " ++ senderDisplay ++ ": " ++ fc)

/-- `BaseSummarizer._format_messages` (lines 30-92): apply the normalizer
to every record in order, discard drops, join with newlines. -/
def formatMessages (logs : List RawMessage) : String :=
  String.intercalate "\n" (logs.filterMap normalizeMsg)

/-- `ChatLogExporter.format_messages` (lines 106-170). -/
def formatMessagesExport (logs : List RawMessage) : String :=
  String.intercalate "\n" (logs.filterMap normalizeExportMsg)

/-- The transcript string that `OpenAISummarizer.summarize_chat_logs`
(line 189) and `GeminiSummarizer.summarize_chat_logs` (line 335) build and
interpolate into the prompt handed to the remote model:
`self._format_messages(chat_logs)` over the full retrieved list. -/
def remotePromptTranscript (logs : List RawMessage) : String :=
  formatMessages logs

/-- The transcript the human-readable export path writes:
`ChatLogExporter.generate_markdown_report` returns
`self.format_messages(chat_logs)` unchanged (lines 172-200). -/
def exportTranscript (logs : List RawMessage) : String :=
  formatMessagesExport logs

/-- Modelled from the words of the spec, for comparison only: the
transcript truncated to the most-recent `window` surviving lines
(oldest-first order preserved). -/
def truncatedTranscript (logs : List RawMessage) (window : Nat) : String :=
  String.intercalate "\n"
    ((logs.filterMap normalizeMsg).drop ((logs.filterMap normalizeMsg).length - window))

/-! ### Per-group pipeline (main.py WeChatDailyReporter.run_daily_report) -/

/-- The per-group message count stored into each summary record
(main.py line 187): `len([log for log in chat_logs if log.get('type') == 1])`. -/
def messageCount (logs : List RawMessage) : Nat :=
  (logs.filter (fun l => l.type = 1)).length

/-- One entry of the `summaries` list built by `run_daily_report`
(main.py lines 173-177 and 189-193). -/
structure SummaryRec where
  group_name : String
  summary : String
  message_count : Nat
deriving DecidableEq, Repr

/-- Placeholder record appended when a group has no retrieved records
(main.py lines 173-177); a retrieval transport failure surfaces here,
because `WeChatAPIClient.get_chat_logs` catches `requests.RequestException`
and returns the empty list (wechat_client.py lines 58-64). -/
def emptyGroupRecord (name : String) : SummaryRec :=
  ⟨name, "## 群聊：" ++ name ++ "\n\n暂无聊天记录", 0⟩

/-- The RuntimeError message `run_daily_report` re-raises when the
summarizer fails for a group (main.py line 185). -/
def wrapAIError (name errMsg : String) : String :=
  "AI总结失败，停止报告生成流程。群聊 \x27" ++ name ++ "\x27 错误: " ++ errMsg

/-- Input to one iteration of the per-group loop: group name, the records
the retrieval layer returned (empty on transport failure), and the outcome
of the summarizer call for that transcript — `Except.error` models the
RuntimeError the remote backends raise on an upstream failure
(summarizer.py lines 223-225 and 367-370). -/
def GroupInput : Type := String × List RawMessage × Except String String

/-- One iteration of the per-group loop of `run_daily_report`
(main.py lines 160-207): empty retrieval degrades to a placeholder
record; a summarizer failure is rewrapped and re-raised (the
`except RuntimeError: raise` branch); success stores the summary with the
type-1 message count. -/
def processGroup (inp : GroupInput) : Except String SummaryRec :=
  match inp with
  | (name, logs, sumRes) =>
    if logs.isEmpty then
      Except.ok (emptyGroupRecord name)
    else
      match sumRes with
      | Except.error e => Except.error (wrapAIError name e)
      | Except.ok s => Except.ok ⟨name, s, messageCount logs⟩

/-- The whole per-group loop: groups processed in configured order; the
first re-raised summarizer error aborts everything (no later group is
processed and no record list is produced). -/
def processGroups : List GroupInput → Except String (List SummaryRec)
  | [] => Except.ok []
  | inp :: rest =>
    match processGroup inp with
    | Except.error e => Except.error e
    | Except.ok r =>
      match processGroups rest with
      | Except.error e => Except.error e
      | Except.ok rs => Except.ok (r :: rs)

/-! ### Report assembly (report_generator.py ReportGenerator) -/

/-- Total message count of the report (report_generator.py line 31):
`sum(s.get('message_count', 0) for s in summaries)`. -/
def totalMessages (summaries : List SummaryRec) : Nat :=
  (summaries.map (fun s => s.message_count)).sum

/-- The text one loop iteration of the default Jinja template contributes
(report_generator.py lines 101-108, default trim settings): the literal
newlines around the tags always render; the summary block renders only
when `summary.summary` is truthy, with a `---` separator when the record
is not in the last position of the list. -/
def sectionFragment (n i : Nat) (s : SummaryRec) : String :=
  "\n" ++
  (if s.summary ≠ "" then
    "\n" ++ s.summary ++ "\n\n" ++ (if i + 1 ≠ n then "---" else "") ++ "\n\n"
  else "") ++
  "\n"

/-- The rendered `{% for %}` body over the whole summary list. -/
def renderSections (summaries : List SummaryRec) : String :=
  String.join (summaries.enum.map (fun p => sectionFragment summaries.length p.1 p.2))

/-- `ReportGenerator.generate_daily_report` with the default template
(report_generator.py lines 18-46 and 90-113): header block with the date,
generation timestamp, `total_groups = len(summaries)` and
`total_messages`, then the sections, then the fixed footer (the final
newline of the template literal is stripped by Jinja). -/
def generateDailyReport (summaries : List SummaryRec) (reportDate generationTime : String) : String :=
  "# 微信群聊每日报告\n\n**报告日期**: " ++ reportDate ++
  "  \n**生成时间**: " ++ generationTime ++
  "  \n**监控群数**: " ++ toString summaries.length ++
  "  \n**消息总数**: " ++ toString (totalMessages summaries) ++
  "\n\n---\n\n" ++ renderSections summaries ++
  "\n\n---\n\n*本报告由微信聊天记录自动分析系统生成*"

/-- Full run of `run_daily_report` up to report generation: `.error` means
the run aborted and no report text exists. -/
def runDailyReport (inputs : List GroupInput) (date genTime : String) : Except String String :=
  match processGroups inputs with
  | Except.error e => Except.error e
  | Except.ok recs => Except.ok (generateDailyReport recs date genTime)

/-! ### Persistence layout (ReportGenerator.save_report and the groups subpath) -/

/-- Combined-report path (report_generator.py lines 48-74): directory
`reports`, filename `wechat_daily_report_<date>.md`. -/
def combinedReportPath (date : String) : String :=
  "reports/wechat_daily_report_" ++ date ++ ".md"

/-- Modelled from the spec: `ReportGenerator.save_group_reports` is
invoked by `run_daily_report` (main.py line 214) but its definition is not
present in the source tree; per the persisted-report layout of the spec it
writes one file per group under a groups subpath keyed by the same date.
Each write is a (path, content) pair. -/
def save_group_reports (summaries : List SummaryRec) (date : String) : List (String × String) :=
  summaries.map (fun s => ("reports/groups/" ++ s.group_name ++ "_" ++ date ++ ".md", s.summary))

/-- The persistence steps of a successful run (main.py lines 209-225):
write the combined report, then the per-group files, and return the
combined file path. The first component lists every (path, content)
write in order. -/
def persistRun (recs : List SummaryRec) (date genTime : String) : List (String × String) × String :=
  ((combinedReportPath date, generateDailyReport recs date genTime) ::
    save_group_reports recs date,
   combinedReportPath date)

/-- `run_daily_report` end to end: per-group processing, then persistence;
an aborted run performs no writes and returns no path. -/
def runDailyReportFull (inputs : List GroupInput) (date genTime : String) :
    Except String (List (String × String) × String) :=
  match processGroups inputs with
  | Except.error e => Except.error e
  | Except.ok recs => Except.ok (persistRun recs date genTime)

/-! ### Time-window resolver (wechat_client.py get_daily_report_chats, lines 71-102) -/

/-- A naive datetime, modelled as whole minutes on the timeline (Python
datetime arithmetic at minute granularity: `timedelta(days=1)` adds 1440
minutes, `replace(hour=5, minute=0, ...)` keeps the day and sets the
time of day). A calendar date is its day index; midnight of day `d` is
minute `d * 1440`. -/
def ReportWindow : Type := Int × Int

/-- Start of the window of `get_daily_report_chats`: the report date at
05:00 (line 87). -/
def windowStart (d : Int) : Int := d * 1440 + 5 * 60

/-- End of the window: the next day at 05:00 (line 88). -/
def windowEnd (d : Int) : Int := (d + 1) * 1440 + 5 * 60

/-- The resolved report window for report date `d`. -/
def resolveWindow (d : Int) : ReportWindow := (windowStart d, windowEnd d)

/-- Two-digit zero padding of `strftime`. -/
def pad2 (n : Nat) : String :=
  if n < 10 then "0" ++ toString n else toString n

/-- Four-digit zero padding for `%Y`. -/
def pad4 (n : Nat) : String :=
  if n < 10 then "000" ++ toString n
  else if n < 100 then "00" ++ toString n
  else if n < 1000 then "0" ++ toString n
  else toString n

/-- Proleptic-Gregorian civil date (year, month, day) from a day index
(days since 1970-01-01), the standard days-from-civil inverse. -/
def civilFromDays (z0 : Int) : Int × Nat × Nat :=
  let z := z0 + 719468
  let era := (if 0 ≤ z then z else z - 146096) / 146097
  let doe := (z - era * 146097).toNat
  let yoe := (doe - doe / 1460 + doe / 36524 - doe / 146096) / 365
  let doy := doe - (365 * yoe + yoe / 4 - yoe / 100)
  let mp := (5 * doy + 2) / 153
  let dayv := doy - (153 * mp + 2) / 5 + 1
  let m := if mp < 10 then mp + 3 else mp - 9
  ((yoe : Int) + era * 400 + (if m ≤ 2 then 1 else 0), m, dayv)

/-- `strftime('%Y-%m-%d %H:%M')` on a minute-valued datetime. -/
def fmtMinute (t : Int) : String :=
  let modMin := (t.emod 1440).toNat
  match civilFromDays (t.ediv 1440) with
  | (y, m, dayv) =>
    pad4 y.toNat ++ "-" ++ pad2 m ++ "-" ++ pad2 dayv ++ " " ++
    pad2 (modMin / 60) ++ ":" ++ pad2 (modMin % 60)

/-- The `time` query value built by `get_daily_report_chats`
(lines 90-100): format both endpoints to minute precision, and collapse to
the single start value when the two formatted strings are equal, else join
them with `~`. -/
def dailyTimeRange (d : Int) : String :=
  if fmtMinute (resolveWindow d).1 = fmtMinute (resolveWindow d).2
  then fmtMinute (resolveWindow d).1
  else fmtMinute (resolveWindow d).1 ++ "~" ++ fmtMinute (resolveWindow d).2

/-! ### Retrieval pager (export_chat_logs.py ChatLogExporter.get_chat_logs, lines 44-104) -/

/-- Upstream response to one page request, after the client layer: a JSON
array, a JSON object whose `data` field holds the records, an unexpected
format (`break`), or an exception escaping the loop body (`break`). A
transport failure inside `WeChatAPIClient.get_chat_logs` is caught there
and surfaces as the empty array. -/
inductive ApiResp where
  | arr (logs : List RawMessage)
  | obj (data : List RawMessage)
  | other
  | exn
deriving DecidableEq, Repr

/-- The `while True` paging loop, with explicit fuel standing for the
unbounded iteration (the source relies on a short page to terminate): each
round requests `offset`, records it, unwraps the response, stops on an
empty page, otherwise accumulates and stops when the page is shorter than
`limit`, else advances the offset by `limit`. Returns the accumulated
records and the requested offsets in order. -/
def pagerLoop (u : Nat → ApiResp) (limit : Nat) :
    Nat → Nat → List RawMessage → List Nat → List RawMessage × List Nat
  | 0, _, acc, reqs => (acc, reqs)
  | fuel + 1, offset, acc, reqs =>
    match u offset with
    | ApiResp.exn => (acc, reqs ++ [offset])
    | ApiResp.other => (acc, reqs ++ [offset])
    | ApiResp.arr logs =>
      if logs.isEmpty then (acc, reqs ++ [offset])
      else if logs.length < limit then (acc ++ logs, reqs ++ [offset])
      else pagerLoop u limit fuel (offset + limit) (acc ++ logs) (reqs ++ [offset])
    | ApiResp.obj logs =>
      if logs.isEmpty then (acc, reqs ++ [offset])
      else if logs.length < limit then (acc ++ logs, reqs ++ [offset])
      else pagerLoop u limit fuel (offset + limit) (acc ++ logs) (reqs ++ [offset])

/-- `ChatLogExporter.get_chat_logs`: run the paging loop from offset 0
with empty accumulators. -/
def getChatLogsPaged (u : Nat → ApiResp) (limit fuel : Nat) : List RawMessage × List Nat :=
  pagerLoop u limit fuel 0 [] []

/-! ### Proxy overlay (proxy_manager.py ProxyManager, lines 10-82) -/

/-- The process environment, as a partial map from variable names to
values. -/
def Env : Type := String → Option String

/-- `os.environ[k] = v`. -/
def envSet (e : Env) (k v : String) : Env :=
  fun q => if q = k then some v else e q

/-- `os.environ.pop(k, None)`. -/
def envPop (e : Env) (k : String) : Env :=
  fun q => if q = k then none else e q

/-- Python truthiness of an optional proxy URL: `None` and the empty
string are falsy. -/
def optTruthy : Option String → Bool
  | none => false
  | some s => s ≠ ""

/-- ProxyManager state: the enable flag and the configured proxy URLs. -/
structure ProxyMgr where
  enabled : Bool
  httpProxy : Option String
  httpsProxy : Option String

/-- The `_original_env` snapshot `_set_proxy` takes before mutating
anything (proxy_manager.py lines 40-46). -/
structure SavedEnv where
  upperHttp : Option String
  upperHttps : Option String
  lowerHttp : Option String
  lowerHttps : Option String

/-- `ProxyManager._set_proxy` (lines 35-57), called with `enabled` true:
snapshot the four variables, then overlay `HTTP_PROXY`/`http_proxy` when
the HTTP proxy URL is truthy and `HTTPS_PROXY`/`https_proxy` when the
HTTPS proxy URL is truthy. -/
def setProxy (pm : ProxyMgr) (e : Env) : SavedEnv × Env :=
  let saved : SavedEnv :=
    ⟨e "HTTP_PROXY", e "HTTPS_PROXY", e "http_proxy", e "https_proxy"⟩
  let e1 :=
    match pm.httpProxy with
    | some s => if s ≠ "" then envSet (envSet e "HTTP_PROXY" s) "http_proxy" s else e
    | none => e
  let e2 :=
    match pm.httpsProxy with
    | some s => if s ≠ "" then envSet (envSet e1 "HTTPS_PROXY" s) "https_proxy" s else e1
    | none => e1
  (saved, e2)

/-- Restore one variable: delete it when it was previously unset, else
write the previous value back (proxy_manager.py lines 64-71). -/
def restoreKey (e : Env) (k : String) : Option String → Env
  | none => envPop e k
  | some s => envSet e k s

/-- `ProxyManager._clear_proxy` (lines 59-73): restore all four variables
from the snapshot, in insertion order of `_original_env`. -/
def clearProxy (saved : SavedEnv) (e : Env) : Env :=
  restoreKey
    (restoreKey
      (restoreKey
        (restoreKey e "HTTP_PROXY" saved.upperHttp)
        "HTTPS_PROXY" saved.upperHttps)
      "http_proxy" saved.lowerHttp)
    "https_proxy" saved.lowerHttps

/-- The four proxy-related variable names. -/
def proxyKeys : List String :=
  ["HTTP_PROXY", "HTTPS_PROXY", "http_proxy", "https_proxy"]

/-- `ProxyManager.proxy_context` (lines 20-33) wrapped around one body.
The body transforms the environment and reports whether it raised; the
`try/finally` shape runs `_clear_proxy` on both exit paths before the
outcome propagates. When the manager is disabled the body runs bare and
the manager touches nothing. -/
def proxyContextRun (pm : ProxyMgr) (body : Env → Env × Bool) (e : Env) : Env × Bool :=
  if pm.enabled then
    match setProxy pm e with
    | (saved, e1) =>
      match body e1 with
      | (e2, raised) => (clearProxy saved e2, raised)
  else
    body e

/-! ### Concrete instances used by witnesses and counterexamples -/

/-- A minimal surviving text message. -/
def plainMsg : RawMessage := ⟨"", "s", "x", 1, 0, ⟨"", "", none⟩, false⟩

/-- Fifty-one identical surviving records: more than 50 surviving lines. -/
def logs51 : List RawMessage := List.replicate 51 plainMsg

/-- Page contents for the 1000/1000/400 pager scenario. -/
def pagerPages : Nat → List RawMessage := fun i =>
  if i = 2 then List.replicate 400 plainMsg else List.replicate 1000 plainMsg

/-- Upstream for the pager scenario: full pages at offsets 0 and 1000, a
short page at offset 2000. -/
def pagerUpstream : Nat → ApiResp := fun off =>
  if off = 0 then ApiResp.arr (pagerPages 0)
  else if off = 1000 then ApiResp.arr (pagerPages 1)
  else if off = 2000 then ApiResp.arr (pagerPages 2)
  else ApiResp.other

/-- A link-share record (kind 49 / sub 51). -/
def linkMsg : RawMessage := ⟨"", "s", "", 49, 51, ⟨"标题", "http://u", none⟩, false⟩

/-- A quote-reply record (kind 49 / sub 57) with a referenced message. -/
def quoteMsg : RawMessage := ⟨"", "s", "q", 49, 57, ⟨"", "", some ⟨"Ann", "orig", true⟩⟩, false⟩

/-- Proxy manager with both proxies configured, for the witness. -/
def pmWitness : ProxyMgr := ⟨true, some "http://p1", some "http://p2"⟩

/-- Environment where only HTTP_PROXY was previously set. -/
def envWitness : Env := fun k => if k = "HTTP_PROXY" then some "old" else none

/-- A body that both mutates a proxy variable and raises. -/
def bodyWitness : Env → Env × Bool := fun e => (envSet e "https_proxy" "junk", true)

/-! ### Helper lemmas -/

theorem pyStripEmpty_append (s t : String) :
    pyStripEmpty (s ++ t) = (pyStripEmpty s && pyStripEmpty t) := by
  simp [pyStripEmpty, String.data_append, List.all_append]

theorem restoreKey_ne (e : Env) (k q : String) (v : Option String) (h : q ≠ k) :
    restoreKey e k v q = e q := by
  cases v <;> simp [restoreKey, envSet, envPop, h]

theorem restoreKey_eq (e : Env) (k : String) (v : Option String) :
    restoreKey e k v k = v := by
  cases v <;> simp [restoreKey, envSet, envPop]

theorem clearProxy_restores (e e2 : Env) (k : String) (hk : k ∈ proxyKeys) :
    clearProxy ⟨e "HTTP_PROXY", e "HTTPS_PROXY", e "http_proxy", e "https_proxy"⟩ e2 k
      = e k := by
  fin_cases hk
  · rw [clearProxy, restoreKey_ne _ _ _ _ (by decide), restoreKey_ne _ _ _ _ (by decide),
      restoreKey_ne _ _ _ _ (by decide), restoreKey_eq]
  · rw [clearProxy, restoreKey_ne _ _ _ _ (by decide), restoreKey_ne _ _ _ _ (by decide),
      restoreKey_eq]
  · rw [clearProxy, restoreKey_ne _ _ _ _ (by decide), restoreKey_eq]
  · rw [clearProxy, restoreKey_eq]

theorem pagerLoop_full (u : Nat → ApiResp) (L : Nat) (pages : Nat → List RawMessage)
    (hL : 0 < L) :
    ∀ (n j fuel : Nat) (acc : List RawMessage) (reqs : List Nat),
      (∀ i, j ≤ i → i < j + n →
        u (i * L) = ApiResp.arr (pages i) ∧ (pages i).length = L) →
      pagerLoop u L (fuel + n) (j * L) acc reqs =
        pagerLoop u L fuel ((j + n) * L)
          (acc ++ ((List.range' j n).map pages).flatten)
          (reqs ++ (List.range' j n).map (fun i => i * L)) := by
  intro n
  induction n with
  | zero => intro j fuel acc reqs _; simp
  | succ n ih =>
    intro j fuel acc reqs h
    obtain ⟨hu, hlen⟩ := h j (Nat.le_refl j) (by omega)
    have hne : (pages j).isEmpty = false := by
      cases hp : pages j with
      | nil => rw [hp] at hlen; simp at hlen; omega
      | cons a t => rfl
    have hnl : ¬ (pages j).length < L := by omega
    have hstep : pagerLoop u L (fuel + (n + 1)) (j * L) acc reqs =
        pagerLoop u L (fuel + n) ((j + 1) * L) (acc ++ pages j) (reqs ++ [j * L]) := by
      show pagerLoop u L ((fuel + n) + 1) (j * L) acc reqs = _
      rw [pagerLoop, hu]
      simp only [hne, Bool.false_eq_true, if_false, hnl, Nat.succ_mul]
    rw [hstep, ih (j + 1) fuel (acc ++ pages j) (reqs ++ [j * L])
      (fun i h1 h2 => h i (by omega) (by omega))]
    rw [List.range'_succ]
    have hjn : j + 1 + n = j + (n + 1) := by omega
    simp [hjn, List.flatten, List.append_assoc]

/-! ### C7: images are dropped -/

/-- C7: for every RawMessage with messageKind 3 (image), the normalizer
returns Dropped — it contributes no line to the transcript, on the
summarizer path and on the export path alike. -/
theorem kind3_dropped (msg : RawMessage) (h : msg.type = 3) :
    normalizeMsg msg = none ∧ normalizeExportMsg msg = none := by
  have hfc : formatContent msg = none := by
    simp [formatContent, h]
  simp [normalizeMsg, normalizeExportMsg, hfc]

/-- Witness for C7 at a concrete image record. -/
theorem kind3_dropped_witness :
    normalizeMsg ⟨"2025-07-04T10:05:32+08:00", "Alice", "pic", 3, 0, ⟨"", "", none⟩, false⟩ = none ∧
    normalizeExportMsg ⟨"2025-07-04T10:05:32+08:00", "Alice", "pic", 3, 0, ⟨"", "", none⟩, false⟩ = none :=
  kind3_dropped ⟨"2025-07-04T10:05:32+08:00", "Alice", "pic", 3, 0, ⟨"", "", none⟩, false⟩ rfl

/-! ### C8: the normalizer is total; bad timestamps pass through -/

/-- C8: the normalizer is a total function (it is defined for every
RawMessage, mirroring the bare except of the source), and when the
timestamp shortening fails to parse, the original timestamp string is
passed through unmodified into the rendered line. -/
theorem timestamp_passthrough (ts : String) (msg : RawMessage) :
    (shortTimeAttempt ts = none → shortTime ts = ts) ∧
    (shortTimeAttempt msg.time = none → msg.type = 1 → pyStripEmpty msg.content = false →
      normalizeMsg msg = some ("[" ++ msg.time ++ "] " ++
        (if msg.isSelf then msg.senderName ++ " [我]" else msg.senderName) ++
        ": " ++ msg.content)) := by
  constructor
  · intro h
    unfold shortTime
    split
    · rfl
    · rw [h]
  · intro h1 h2 h3
    have hfc : formatContent msg = some msg.content := by
      simp [formatContent, h2]
    have hst : shortTime msg.time = msg.time := by
      unfold shortTime
      split
      · rfl
      · rw [h1]
    simp [normalizeMsg, hfc, h3, hst]

/-- Witness for C8: a timestamp that is not ISO-8601 survives unchanged. -/
theorem timestamp_passthrough_witness :
    shortTime "yesterday" = "yesterday" ∧
    normalizeMsg ⟨"yesterday", "Alice", "hi", 1, 0, ⟨"", "", none⟩, false⟩ =
      some "[yesterday] Alice: hi" := by
  have h := timestamp_passthrough "yesterday" ⟨"yesterday", "Alice", "hi", 1, 0, ⟨"", "", none⟩, false⟩
  refine ⟨h.1 (by decide), ?_⟩
  rw [h.2 (by decide) rfl (by decide)]
  decide

/-! ### C1: no last-50 truncation exists on the remote path -/

set_option maxRecDepth 40000 in
/-- C1 (counterexample): with 51 surviving lines, the transcript handed to
the remote model is NOT the last 50 lines — it differs from the
spec-described truncation at window 50. -/
theorem remote_truncation_counterexample :
    (logs51.filterMap normalizeMsg).length = 51 ∧
    remotePromptTranscript logs51 ≠ truncatedTranscript logs51 50 := by
  constructor
  · decide
  · decide

/-- C1 (amended): neither summarization path truncates the transcript.
The transcript interpolated into the remote-model prompt equals the
spec-style truncation only at the degenerate window equal to the full
surviving line count, i.e. it always carries every surviving line, and the
export path likewise joins every surviving line. -/
theorem no_truncation_anywhere (logs : List RawMessage) :
    remotePromptTranscript logs =
      truncatedTranscript logs (logs.filterMap normalizeMsg).length ∧
    exportTranscript logs = String.intercalate "\n" (logs.filterMap normalizeExportMsg) := by
  constructor
  · unfold remotePromptTranscript truncatedTranscript formatMessages
    rw [Nat.sub_self, List.drop_zero]
  · rfl

theorem pagerPages_ne2 (i : Nat) (h : ¬ i = 2) : pagerPages i = List.replicate 1000 plainMsg :=
  if_neg h

theorem pagerPages_at2 : pagerPages 2 = List.replicate 400 plainMsg :=
  if_pos rfl

/-! ### C5: paging offsets, termination conditions, accumulation -/

/-- C5: with `k` full pages at offsets `0, L, ..., (k-1)*L`, the paging
loop requests exactly the successive offsets `0, L, ..., k*L` and
accumulates the pages in order, terminating at request `k` when that page
is shorter than `L` (keeping it), when it is empty, or when the request
fails — in the two latter cases returning exactly what was already
accumulated. -/
theorem pager_offsets_and_termination
    (u : Nat → ApiResp) (L k fuel : Nat) (pages : Nat → List RawMessage)
    (hL : 0 < L) (hfuel : k < fuel)
    (hfull : ∀ i, i < k → u (i * L) = ApiResp.arr (pages i) ∧ (pages i).length = L) :
    (u (k * L) = ApiResp.arr (pages k) → (pages k).length ≠ 0 → (pages k).length < L →
      getChatLogsPaged u L fuel =
        (((List.range' 0 k).map pages).flatten ++ pages k,
         (List.range' 0 (k + 1)).map (fun i => i * L))) ∧
    (u (k * L) = ApiResp.arr [] →
      getChatLogsPaged u L fuel =
        (((List.range' 0 k).map pages).flatten,
         (List.range' 0 (k + 1)).map (fun i => i * L))) ∧
    (u (k * L) = ApiResp.exn →
      getChatLogsPaged u L fuel =
        (((List.range' 0 k).map pages).flatten,
         (List.range' 0 (k + 1)).map (fun i => i * L))) := by
  obtain ⟨m, hm⟩ : ∃ m, fuel = (m + 1) + k := ⟨fuel - k - 1, by omega⟩
  have hbase : getChatLogsPaged u L fuel =
      pagerLoop u L (m + 1) (k * L)
        (((List.range' 0 k).map pages).flatten)
        ((List.range' 0 k).map (fun i => i * L)) := by
    have h0 := pagerLoop_full u L pages hL k 0 (m + 1) [] []
      (fun i h1 h2 => hfull i (by omega))
    simpa [getChatLogsPaged, hm] using h0
  have hreq : (List.range' 0 k).map (fun i => i * L) ++ [k * L] =
      (List.range' 0 (k + 1)).map (fun i => i * L) := by
    have hc := @List.range'_concat 1 0 k
    simp only [Nat.one_mul, Nat.zero_add] at hc
    rw [hc, List.map_append]
    rfl
  refine ⟨?_, ?_, ?_⟩
  · intro hu hne hlt
    have hempty : (pages k).isEmpty = false := by
      cases hp : pages k with
      | nil => rw [hp] at hne; simp at hne
      | cons a t => rfl
    rw [hbase, pagerLoop, hu]
    simp only [hempty, Bool.false_eq_true, if_false, hlt, if_true, hreq]
  · intro hu
    rw [hbase, pagerLoop, hu]
    simp only [List.isEmpty_nil, if_true, hreq]
  · intro hu
    rw [hbase, pagerLoop, hu, hreq]

/-- Witness for C5: the 1000/1000/400 scenario makes exactly 3 requests at
offsets 0, 1000, 2000 and returns 2400 records. -/
theorem pager_witness :
    (getChatLogsPaged pagerUpstream 1000 10).1.length = 2400 ∧
    (getChatLogsPaged pagerUpstream 1000 10).2 = [0, 1000, 2000] := by
  have hfull : ∀ i, i < 2 →
      pagerUpstream (i * 1000) = ApiResp.arr (pagerPages i) ∧ (pagerPages i).length = 1000 := by
    intro i hi
    have : i = 0 ∨ i = 1 := by omega
    rcases this with h | h <;> subst h <;>
      exact ⟨rfl, by rw [pagerPages_ne2 _ (by omega), List.length_replicate]⟩
  have h := (pager_offsets_and_termination pagerUpstream 1000 2 10 pagerPages
    (by omega) (by omega) hfull).1 rfl
    (by rw [pagerPages_at2, List.length_replicate]; omega)
    (by rw [pagerPages_at2, List.length_replicate]; omega)
  rw [h]
  constructor
  · have hr : (List.range' 0 2) = [0, 1] := rfl
    rw [hr]
    simp only [List.map_cons, List.map_nil, List.flatten_cons, List.flatten_nil,
      pagerPages_at2, pagerPages_ne2 0 (by omega), pagerPages_ne2 1 (by omega),
      List.length_append, List.length_replicate, List.append_nil, List.length_nil]
  · rfl

/-! ### C4: the report window tiles day over day -/

/-- C4: for every report date the resolved window spans exactly 24 hours,
from the date at 05:00 to the next day at 05:00; the start of the window
of `d` equals the end of the window of `d - 1` (adjacent windows tile);
and the query value is built by comparing the two minute-formatted
endpoint strings for equality and collapsing to the single start value
when they agree. -/
theorem window_tiles (d : Int) :
    (resolveWindow d).2 - (resolveWindow d).1 = 24 * 60 ∧
    (resolveWindow d).1 = (resolveWindow (d - 1)).2 ∧
    dailyTimeRange d =
      (if fmtMinute (resolveWindow d).1 = fmtMinute (resolveWindow d).2
       then fmtMinute (resolveWindow d).1
       else fmtMinute (resolveWindow d).1 ++ "~" ++ fmtMinute (resolveWindow d).2) := by
  refine ⟨?_, ?_, rfl⟩
  · simp only [resolveWindow, windowStart, windowEnd]
    ring
  · simp only [resolveWindow, windowStart, windowEnd]
    ring

/-! ### C2: summarizer failure aborts, transport failure degrades -/

/-- C2: a remote summarization failure for any group with retrieved
records propagates (rewrapped in the fatal RuntimeError message) and
aborts the whole run with no report produced, whereas a retrieval
transport failure — which surfaces as an empty record list — degrades to a
placeholder record (message count 0, placeholder summary) and processing
continues with the remaining groups. -/
theorem summarizer_fatal_transport_degrades
    (name : String) (logs : List RawMessage) (e : String) (r : Except String String)
    (rest : List GroupInput) (date genTime : String) :
    (logs ≠ [] →
      runDailyReport ((name, logs, Except.error e) :: rest) date genTime =
        Except.error (wrapAIError name e)) ∧
    (processGroups ((name, ([] : List RawMessage), r) :: rest) =
      match processGroups rest with
      | Except.error err => Except.error err
      | Except.ok rs => Except.ok (emptyGroupRecord name :: rs)) := by
  constructor
  · intro hne
    have hempty : logs.isEmpty = false := by
      cases logs with
      | nil => exact absurd rfl hne
      | cons a t => rfl
    simp [runDailyReport, processGroups, processGroup, hempty]
  · simp [processGroups, processGroup]

/-- Witness for C2: one failing group aborts; one transport-failed group
produces the placeholder record and the run goes on. -/
theorem summarizer_fatal_transport_degrades_witness :
    runDailyReport [("技术群", [plainMsg], Except.error "boom")] "2025-01-10" "t" =
      Except.error (wrapAIError "技术群" "boom") ∧
    processGroups [("闲聊群", [], Except.ok "s"), ("技术群", [plainMsg], Except.ok "s2")] =
      Except.ok [emptyGroupRecord "闲聊群", ⟨"技术群", "s2", 1⟩] := by
  constructor
  · exact (summarizer_fatal_transport_degrades "技术群" [plainMsg] "boom" (Except.ok "s")
      [] "2025-01-10" "t").1 (by simp)
  · have h := (summarizer_fatal_transport_degrades "闲聊群" [plainMsg] "boom" (Except.ok "s")
      [("技术群", [plainMsg], Except.ok "s2")] "2025-01-10" "t").2
    rw [h]
    rfl

/-! ### C3: persistence layout of a successful run -/

/-- C3: every successful run persists the combined report at
`reports/wechat_daily_report_<date>.md`, plus one file per produced group
record under the groups subpath keyed by the same date, and returns the
combined file path. (The per-group writer `save_group_reports` is called
from main.py but absent from the source tree; it is modelled from the
spec.) -/
theorem run_persists_reports
    (inputs : List GroupInput) (date genTime : String) (recs : List SummaryRec)
    (h : processGroups inputs = Except.ok recs) :
    runDailyReportFull inputs date genTime =
      Except.ok
        (("reports/wechat_daily_report_" ++ date ++ ".md",
            generateDailyReport recs date genTime) ::
          recs.map (fun s =>
            ("reports/groups/" ++ s.group_name ++ "_" ++ date ++ ".md", s.summary)),
         "reports/wechat_daily_report_" ++ date ++ ".md") := by
  simp [runDailyReportFull, h, persistRun, save_group_reports, combinedReportPath]

/-- Witness for C3 at a one-group run. -/
theorem run_persists_reports_witness :
    runDailyReportFull [("技术群", [], Except.ok "s")] "2025-01-10" "t" =
      Except.ok
        (("reports/wechat_daily_report_2025-01-10.md",
            generateDailyReport [emptyGroupRecord "技术群"] "2025-01-10" "t") ::
          [("reports/groups/技术群_2025-01-10.md", (emptyGroupRecord "技术群").summary)],
         "reports/wechat_daily_report_2025-01-10.md") := by
  have h := run_persists_reports [("技术群", [], Except.ok "s")] "2025-01-10" "t"
    [emptyGroupRecord "技术群"] rfl
  rw [h]
  rfl

/-! ### C6: an empty summary renders no section at all -/

/-- C6 (counterexample): a record whose summary is empty does NOT render
its header line — the rendered report for a group named "G" with empty
summary contains no occurrence of the group name at all (the loop skips
the record entirely). -/
theorem empty_summary_counterexample :
    (generateDailyReport [⟨"G", "", 5⟩] "2025-01-10" "2025-01-10 12:00:00").data.contains 'G'
      = false := by
  decide

/-- C6 (amended): a record whose summary is empty is skipped by the
renderer entirely — its loop iteration contributes only the two literal
newlines of the template loop body, no header line and no section body —
while the rendered header states `group_count = len(records)` and
`total_message_count = sum of the message counts`. -/
theorem empty_summary_renders_nothing
    (summaries : List SummaryRec) (reportDate generationTime : String)
    (i : Nat) (h : i < summaries.length)
    (hs : (summaries.get ⟨i, h⟩).summary = "") :
    sectionFragment summaries.length i (summaries.get ⟨i, h⟩) = "\n\n" ∧
    generateDailyReport summaries reportDate generationTime =
      "# 微信群聊每日报告\n\n**报告日期**: " ++ reportDate ++
      "  \n**生成时间**: " ++ generationTime ++
      "  \n**监控群数**: " ++ toString summaries.length ++
      "  \n**消息总数**: " ++ toString ((summaries.map (fun s => s.message_count)).sum) ++
      "\n\n---\n\n" ++ renderSections summaries ++
      "\n\n---\n\n*本报告由微信聊天记录自动分析系统生成*" := by
  constructor
  · rw [sectionFragment, hs, if_neg (by decide)]
    decide
  · rfl

/-- Witness for C6 at a two-record list whose first summary is empty. -/
theorem empty_summary_renders_nothing_witness :
    sectionFragment 2 0 ⟨"G", "", 5⟩ = "\n\n" := by
  have h := empty_summary_renders_nothing [⟨"G", "", 5⟩, ⟨"H", "s", 7⟩] "d" "t" 0
    (by decide) rfl
  exact h.1

/-! ### C9: the proxy overlay restores the environment on every exit path -/

/-- C9: with the proxy feature enabled, the scoped overlay restores all
four proxy-related environment variables to their prior values — deleting
ones that were previously unset — after the wrapped call, for every body
(including bodies that mutate those variables) and on both exit paths
(the raised flag of the body passes through unchanged, after restoration);
with the feature disabled the manager does not touch the environment at
all. -/
theorem proxy_restores_env (pm : ProxyMgr) (body : Env → Env × Bool) (e : Env) :
    (pm.enabled = true → ∀ k, k ∈ proxyKeys → (proxyContextRun pm body e).1 k = e k) ∧
    (pm.enabled = true →
      (proxyContextRun pm body e).2 = (body (setProxy pm e).2).2) ∧
    (pm.enabled = false → proxyContextRun pm body e = body e) := by
  refine ⟨?_, ?_, ?_⟩
  · intro hen k hk
    have hrun : proxyContextRun pm body e =
        (clearProxy (setProxy pm e).1 (body (setProxy pm e).2).1,
         (body (setProxy pm e).2).2) := by
      unfold proxyContextRun
      rw [if_pos hen]
    rw [hrun]
    have hsaved : (setProxy pm e).1 =
        ⟨e "HTTP_PROXY", e "HTTPS_PROXY", e "http_proxy", e "https_proxy"⟩ := rfl
    show clearProxy (setProxy pm e).1 (body (setProxy pm e).2).1 k = e k
    rw [hsaved]
    exact clearProxy_restores e _ k hk
  · intro hen
    unfold proxyContextRun
    rw [if_pos hen]
  · intro hen
    unfold proxyContextRun
    rw [if_neg (by rw [hen]; decide)]

/-- Witness for C9: enabled manager, a body that overwrites a proxy
variable and raises; all four variables come back to their prior state
(HTTP_PROXY to its old value, the other three to unset), the raise
propagates, and a disabled manager is the identity around the body. -/
theorem proxy_restores_env_witness :
    (proxyContextRun pmWitness bodyWitness envWitness).1 "HTTP_PROXY" = some "old" ∧
    (proxyContextRun pmWitness bodyWitness envWitness).1 "HTTPS_PROXY" = none ∧
    (proxyContextRun pmWitness bodyWitness envWitness).1 "http_proxy" = none ∧
    (proxyContextRun pmWitness bodyWitness envWitness).1 "https_proxy" = none ∧
    (proxyContextRun pmWitness bodyWitness envWitness).2 = true ∧
    proxyContextRun ⟨false, some "http://p1", some "http://p2"⟩ bodyWitness envWitness =
      bodyWitness envWitness := by
  have h := proxy_restores_env pmWitness bodyWitness envWitness
  have hd := (proxy_restores_env ⟨false, some "http://p1", some "http://p2"⟩
    bodyWitness envWitness).2.2 rfl
  exact ⟨h.1 rfl "HTTP_PROXY" (by decide), h.1 rfl "HTTPS_PROXY" (by decide),
    h.1 rfl "http_proxy" (by decide), h.1 rfl "https_proxy" (by decide),
    h.2.1 rfl, hd⟩

/-! ### C10: message_count counts only plain-text records -/

/-- C10: the per-group message count counts only records whose kind is 1:
appending a kind-49 record leaves the count unchanged, even though a
link-share (sub 51) and a quote-reply (sub 57 with a referenced message)
both produce a line in the rendered transcript. -/
theorem count_excludes_kind49 (logs : List RawMessage) (msg : RawMessage)
    (h49 : msg.type = 49) :
    messageCount logs = (logs.filter (fun l => l.type = 1)).length ∧
    messageCount (logs ++ [msg]) = messageCount logs ∧
    (msg.subType = 51 → (normalizeMsg msg).isSome = true) ∧
    (∀ r, msg.subType = 57 → msg.contents.refer = some r →
      (normalizeMsg msg).isSome = true) := by
  refine ⟨rfl, ?_, ?_, ?_⟩
  · simp [messageCount, List.filter_append, h49]
  · intro h51
    have hfc : formatContent msg = some ("[分享] [" ++ msg.contents.title ++ "]" ++
        (if msg.contents.url ≠ "" then "(" ++ msg.contents.url ++ ")" else "")) := by
      simp [formatContent, h49, h51]
    have hstrip : pyStripEmpty ("[分享] [" ++ msg.contents.title ++ "]" ++
        (if msg.contents.url ≠ "" then "(" ++ msg.contents.url ++ ")" else "")) = false := by
      simp [pyStripEmpty_append, show pyStripEmpty "[分享] [" = false from by decide]
    simp only [normalizeMsg, hfc, hstrip, Bool.false_eq_true, if_false, Option.isSome_some]
  · intro r h57 href
    have h51 : ¬ msg.subType = 51 := by rw [h57]; decide
    have hfc : formatContent msg = some (msg.content ++ "\n  └ 回复 " ++
        (if r.isSelf then r.senderName ++ " [我]" else r.senderName) ++ ": " ++ r.content) := by
      simp [formatContent, h49, h51, h57, href]
    have hstrip : pyStripEmpty (msg.content ++ "\n  └ 回复 " ++
        (if r.isSelf then r.senderName ++ " [我]" else r.senderName) ++ ": " ++ r.content)
        = false := by
      simp [pyStripEmpty_append, show pyStripEmpty "\n  └ 回复 " = false from by decide]
    simp only [normalizeMsg, hfc, hstrip, Bool.false_eq_true, if_false, Option.isSome_some]

/-- Witness for C10: a link-share and a quote-reply render lines but do
not change the count. -/
theorem count_excludes_kind49_witness :
    messageCount ([plainMsg] ++ [linkMsg]) = messageCount [plainMsg] ∧
    (normalizeMsg linkMsg).isSome = true ∧
    (normalizeMsg quoteMsg).isSome = true :=
  ⟨(count_excludes_kind49 [plainMsg] linkMsg rfl).2.1,
   (count_excludes_kind49 [plainMsg] linkMsg rfl).2.2.1 rfl,
   (count_excludes_kind49 [plainMsg] quoteMsg rfl).2.2.2 ⟨"Ann", "orig", true⟩ rfl rfl⟩
